import Mathlib

/-!
Shallow embedding of the PingBoardDaemon RabbitMQ connector
(src/src/rabbitmq.py) in Lean 4.

Modelling conventions:
* Python strings that may be None are Option String; Python truthiness of
  such a value is falsyOpt (None and the empty string are falsy).
* Machine-level JSON values are the inductive type Json; the json.dumps
  serialisation performed by basic_publish is abstracted away: an emitted
  publish operation carries the Json value whose serialisation forms the
  wire body.
* A message body arriving at the consume callback is modelled after the
  result of json.loads: Body.valid j for a body that decodes to j,
  Body.invalid raw err for a body raising JSONDecodeError with message err
  and decoded utf-8 text raw.
* Side effects (logging, basic_publish, basic_ack, basic_cancel,
  channel.close, connection creation, ioloop.call_later) are reified as a
  list of Op values in the order the Python code performs them.
* ioloop.add_callback enqueues a Task; runQueue executes the queue in FIFO
  order, which is exactly the ordering guarantee of the single-threaded
  tornado ioloop.  Completing a basic_cancel immediately invokes the
  registered _on_cancel callback (the broker confirmation), as pika does.
* A Python method that can raise returns its propagated exception in an
  err : Option String field; state mutations performed before the raise
  are kept, as in Python.
* The weakref.WeakMethod configuration provider is
  Option (Option (Except String Json)): none = never registered,
  some none = registered but garbage collected (dereference yields None),
  some (some r) = alive, and calling it returns r (Except.error models the
  provider call raising).
-/

/-- JSON values as produced by json.loads / consumed by json.dumps. -/
inductive Json where
  | null
  | bool (b : Bool)
  | num (n : Int)
  | str (s : String)
  | arr (elems : List Json)
  | obj (fields : List (String × Json))

/-- Python truthiness of an Optional[str]: None and the empty string are falsy. -/
def falsyOpt (o : Option String) : Bool :=
  match o with
  | none => true
  | some s => s == ""

/-- Errors raised by AmqpConfiguration construction. -/
inductive ConfigError where
  | valueError (msg : String)
  | typeError (msg : String)
  deriving DecidableEq

/-- Message of the TypeError raised by the membership test None in rk_key
when rk_key is None. -/
def pyNoneNotIterableMsg : String := "argument of type NoneType is not iterable"

/-- Message of the AttributeError raised by calling a method on a None ioloop. -/
def attrErrMsg : String := "AttributeError: NoneType object has no attribute of the ioloop"

/-- Configuration data for the AMQP communication (class AmqpConfiguration),
after successful validation.  Fields that the constructor validates are
stored unwrapped; exchange and rk_config are never validated and keep their
Optional type. -/
structure AmqpConfiguration where
  host : String
  user : String
  passwd : Option String
  exchange : Option String
  rk_status : String
  rk_key : List String
  rk_config : Option String
  qu_config : String
  declare : Bool
  deriving DecidableEq

def AmqpConfiguration.DEFAULT_EXCHANGE : String := "pingboard"

def AmqpConfiguration.DEFAULT_RK_STATUS : String := "status"

def AmqpConfiguration.DEFAULT_RK_KEY : List String := ["1.key", "2.key", "3.key", "4.key"]

def AmqpConfiguration.DEFAULT_RK_CONFIGURATION : String := "pingboard-configuration"

def AmqpConfiguration.DEFAULT_QU_CONFIGURATION : String := "pingboard-configuration"

def AmqpConfiguration.DEFAULT_DECLARE : Bool := false

/-- AmqpConfiguration.__init__ (src/src/rabbitmq.py lines 48 to 81).
Arguments mirror the Python signature; a caller that omits an argument in
Python passes the signature default here (rk_key defaults to none).
The checks appear in source order: host, user, rk_status, the membership
test on rk_key (which raises TypeError when rk_key is None, since None is
not iterable), queue name.  Afterwards rk_key is replaced by the class
default when it is falsy (only possible for the empty list at this point). -/
def AmqpConfiguration.init
    (amqp_host amqp_user amqp_passwd : Option String)
    (exchange rk_status : Option String)
    (rk_key : Option (List (Option String)))
    (rk_config qu_config : Option String)
    (declare : Bool) : Except ConfigError AmqpConfiguration :=
  if falsyOpt amqp_host then
    Except.error (ConfigError.valueError "Host configuration must be provided!")
  else if falsyOpt amqp_user then
    Except.error (ConfigError.valueError "User configuration must be provided!")
  else if falsyOpt rk_status then
    Except.error (ConfigError.valueError "Routing key for status must be provided!")
  else
    match rk_key with
    | none => Except.error (ConfigError.typeError pyNoneNotIterableMsg)
    | some keys =>
      if keys.contains none || keys.contains (some "") then
        Except.error (ConfigError.valueError "Routing keys for key presses must not be empty!")
      else if falsyOpt qu_config then
        Except.error (ConfigError.valueError "Queue name for configuration must be provided!")
      else
        Except.ok
          { host := amqp_host.getD ""
            user := amqp_user.getD ""
            passwd := amqp_passwd
            exchange := exchange
            rk_status := rk_status.getD ""
            rk_key := if keys.isEmpty then AmqpConfiguration.DEFAULT_RK_KEY
                      else keys.map (fun k => k.getD "")
            rk_config := rk_config
            qu_config := qu_config.getD ""
            declare := declare }

/-- Calling AmqpConfiguration(host, user) with every other argument left at
its Python signature default. -/
def AmqpConfiguration.initHostUser (amqp_host amqp_user : Option String) :
    Except ConfigError AmqpConfiguration :=
  AmqpConfiguration.init amqp_host amqp_user none
    (some AmqpConfiguration.DEFAULT_EXCHANGE) (some AmqpConfiguration.DEFAULT_RK_STATUS)
    none
    (some AmqpConfiguration.DEFAULT_RK_CONFIGURATION)
    (some AmqpConfiguration.DEFAULT_QU_CONFIGURATION)
    AmqpConfiguration.DEFAULT_DECLARE

/-- Python list subscription with an Int index: a negative index counts from
the end of the list; anything out of range raises IndexError. -/
def pyIndex (l : List String) (i : Int) : Except String String :=
  let j : Int := if i < 0 then (l.length : Int) + i else i
  if j < 0 then Except.error "list index out of range"
  else
    match l.get? j.toNat with
    | some x => Except.ok x
    | none => Except.error "list index out of range"

/-- AmqpConfiguration.rk_key (src line 98): return self.rk_key[idx] with
Python indexing semantics. -/
def AmqpConfiguration.rk_key_at (cfg : AmqpConfiguration) (idx : Int) : Except String String :=
  pyIndex cfg.rk_key idx

/-- Timer callbacks passed to ioloop.call_later. -/
inductive TimerTask where
  | reconnectTimer
  deriving DecidableEq

/-- Reified side effects, in the order the Python code performs them. -/
inductive Op where
  | logInfo (msg : String)
  | logWarn (msg : String)
  | logError (msg : String)
  | discardWarn (rk : Option String)
  | basicPublish (exchange : Option String) (rk : Option String) (body : Json)
  | basicAck (deliveryTag : Nat)
  | basicCancel (tag : String)
  | channelClose
  | connectionInit (host : String) (user : String)
  | callLater (delay : Nat) (t : TimerTask)
  | handlerCall (cfg : Json) (ret : Bool)

/-- Callbacks enqueued on the tornado ioloop via add_callback, with their
arguments evaluated at enqueue time, as in Python. -/
inductive LoopTask where
  | publishTask (rk : Option String) (body : Json)
  | cancelTask (tag : String)

/-- State of a RabbitMQConnector (src lines 114 to 128).  Connection and
channel handles are modelled by their presence; ioloop records whether a
scheduler was supplied at construction. -/
structure ConnectorState where
  cfg : AmqpConfiguration
  ioloop : Bool
  terminating : Bool
  connection : Bool
  channel : Bool
  consumer_tag : Option String
  configuration_callback : Option (Json → Bool)
  configuration_provider : Option (Option (Except String Json))

/-- Python truthiness of self.consumer_tag (a str or None). -/
def truthyStr (o : Option String) : Bool :=
  match o with
  | none => false
  | some t => t != ""

/-- Dereference the WeakMethod self.configuration_provider:
none when no provider was ever registered or it has been collected. -/
def providerDeref (s : ConnectorState) : Option (Except String Json) :=
  s.configuration_provider.bind id

/-- RabbitMQConnector.publish (src lines 267 to 275): emit a basic_publish
when a channel is open, otherwise a discard warning naming the routing key. -/
def publishOps (s : ConnectorState) (rk : Option String) (body : Json) : List Op :=
  if s.channel then [Op.basicPublish s.cfg.exchange rk body]
  else [Op.discardWarn rk]

/-- Result of a Python method call: the mutated state, the side effects in
order, the callbacks enqueued on the ioloop in order, and the exception
propagated to the caller, if any. -/
structure StopResult where
  state : ConnectorState
  ops : List Op
  queued : List LoopTask
  err : Option String

/-- Second half of RabbitMQConnector.stop (src lines 144 to 146): enqueue the
consumer cancellation when a channel and a consumer tag are present.  The
add_callback on a None ioloop raises AttributeError. -/
def stopCancel (s1 : ConnectorState) (ops : List Op) (q : List LoopTask) : StopResult :=
  if s1.channel && truthyStr s1.consumer_tag then
    if s1.ioloop then
      { state := s1, ops := ops, queued := q ++ [LoopTask.cancelTask (s1.consumer_tag.getD "")],
        err := none }
    else { state := s1, ops := ops, queued := q, err := some attrErrMsg }
  else { state := s1, ops := ops, queued := q, err := none }

/-- RabbitMQConnector.stop (src lines 133 to 146).  The terminating flag is
set first and survives any later exception.  The flush branch runs when the
configuration routing key differs from the empty string, a provider is
registered and its weak reference is still alive; the provider call may
raise, and add_callback on a None ioloop raises AttributeError. -/
def stop (s : ConnectorState) : StopResult :=
  let s1 := { s with terminating := true }
  let ops0 := [Op.logInfo "Terminating RabbitMQ consumer"]
  if s.cfg.rk_config != some "" && s.configuration_provider.isSome
      && (providerDeref s).isSome then
    let ops1 := ops0 ++ [Op.logInfo "Trying to send current configuration."]
    match providerDeref s with
    | some (Except.ok cfgJson) =>
        if s.ioloop then
          stopCancel s1 ops1 [LoopTask.publishTask s.cfg.rk_config cfgJson]
        else { state := s1, ops := ops1, queued := [], err := some attrErrMsg }
    | some (Except.error e) => { state := s1, ops := ops1, queued := [], err := some e }
    | none => stopCancel s1 ops1 []
  else stopCancel s1 ops0 []

/-- RabbitMQConnector time of executing one enqueued callback.  Completing a
basic_cancel immediately runs the on-cancel confirmation callback
RabbitMQConnector.on_cancel (src lines 148 to 150), which closes the channel
when one is present; on_cancel does not clear the channel field. -/
def runLoopTask (s : ConnectorState) (t : LoopTask) : ConnectorState × List Op :=
  match t with
  | LoopTask.publishTask rk body => (s, publishOps s rk body)
  | LoopTask.cancelTask tag =>
      (s, Op.basicCancel tag :: (if s.channel then [Op.channelClose] else []))

/-- Execute the ioloop callback queue in FIFO order. -/
def runQueue (s : ConnectorState) (q : List LoopTask) : ConnectorState × List Op :=
  match q with
  | [] => (s, [])
  | t :: ts =>
      let r1 := runLoopTask s t
      let r2 := runQueue r1.1 ts
      (r2.1, r1.2 ++ r2.2)

/-- Inbound message body, after the utf-8 decode, classified by the outcome
of json.loads. -/
inductive Body where
  | valid (j : Json)
  | invalid (raw : String) (errMsg : String)

/-- The error report published to the status routing key on a decode failure
(src lines 256 to 261). -/
def errorReport (raw errMsg : String) : Json :=
  Json.obj [("error", Json.obj
    [("message", Json.str "Invalid JSON received for configuration"),
     ("details", Json.str errMsg),
     ("original", Json.str raw)])]

/-- RabbitMQConnector.on_configuration_callback (src lines 248 to 265).
The handler and the decode run only when a configuration callback is
registered; a JSONDecodeError is logged and reported to the status routing
key; the delivery is acknowledged on the delivering channel unless the
connector is terminating.  No connector state is mutated. -/
def onConfigurationCallback (s : ConnectorState) (tag : Nat) (body : Body) :
    ConnectorState × List Op :=
  let ops1 :=
    match s.configuration_callback with
    | none => []
    | some h =>
      match body with
      | Body.valid j => [Op.handlerCall j (h j)]
      | Body.invalid raw errMsg =>
          Op.logWarn ("Could not decode configuration snippet: " ++ errMsg) ::
            publishOps s (some s.cfg.rk_status) (errorReport raw errMsg)
  let ops2 := if s.terminating then [] else [Op.basicAck tag]
  (s, ops1 ++ ops2)

/-- RabbitMQConnector.publish_status (src lines 158 to 159). -/
def publish_status (s : ConnectorState) (status : Json) : List Op :=
  publishOps s (some s.cfg.rk_status) status

/-- RabbitMQConnector.publish_keypress (src lines 161 to 165): publish the
body with field key = idx to self.amqp_cfg.rk_key(idx - 1); an out-of-range
index propagates the IndexError. -/
def publish_keypress (s : ConnectorState) (idx : Int) : Except String (List Op) :=
  match AmqpConfiguration.rk_key_at s.cfg (idx - 1) with
  | Except.error e => Except.error e
  | Except.ok rk => Except.ok (publishOps s (some rk) (Json.obj [("key", Json.num idx)]))

/-- Result of a connector callback that enqueues nothing but may raise. -/
structure CbResult where
  state : ConnectorState
  ops : List Op
  err : Option String

/-- RabbitMQConnector.connect (src lines 167 to 174): create the
TornadoConnection.  The outcome of the constructor is an oracle input:
connectRaises = some e models the constructor raising e. -/
def connectStep (s : ConnectorState) (connectRaises : Option String) : CbResult :=
  let logOps := [Op.logInfo ("Connecting to " ++ s.cfg.user ++ "@" ++ s.cfg.host)]
  match connectRaises with
  | none =>
      { state := { s with connection := true },
        ops := logOps ++ [Op.connectionInit s.cfg.host s.cfg.user], err := none }
  | some e => { state := s, ops := logOps, err := some e }

/-- RabbitMQConnector.reconnect (src lines 176 to 182): while not
terminating, attempt to connect; a synchronous connect exception is logged
and one retry is scheduled 5 time units later — via call_later on the
ioloop, which raises AttributeError when no ioloop was supplied. -/
def reconnect (s : ConnectorState) (connectRaises : Option String) : CbResult :=
  if s.terminating then { state := s, ops := [], err := none }
  else
    match connectRaises with
    | none => connectStep s none
    | some e =>
        let r := connectStep s (some e)
        let logOps := r.ops ++
          [Op.logError ("Error when connecting to RabbitMQ (will try again in 5 seconds: " ++ e)]
        if s.ioloop then
          { state := r.state, ops := logOps ++ [Op.callLater 5 TimerTask.reconnectTimer],
            err := none }
        else { state := r.state, ops := logOps, err := some attrErrMsg }

/-- RabbitMQConnector.on_connection_error (src lines 184 to 186): log and
schedule one reconnect 5 time units later, with no check of the terminating
flag. -/
def onConnectionError (s : ConnectorState) (e : String) : CbResult :=
  let logOps := [Op.logError ("Connection error (trying again in 5 seconds): " ++ e)]
  if s.ioloop then
    { state := s, ops := logOps ++ [Op.callLater 5 TimerTask.reconnectTimer], err := none }
  else { state := s, ops := logOps, err := some attrErrMsg }

/-- External events driving a run of the connector, for the temporal claims:
a stop request and an inbound delivery. -/
inductive Event where
  | stopEv
  | deliver (tag : Nat) (body : Body)

/-- Process one external event: a stop request runs stop and then the
callbacks it enqueued (the ioloop drains them before the next external
event); a delivery runs the consume callback. -/
def stepEvent (s : ConnectorState) (e : Event) : ConnectorState × List Op :=
  match e with
  | Event.stopEv =>
      let r := stop s
      let rq := runQueue r.state r.queued
      (rq.1, r.ops ++ rq.2)
  | Event.deliver tag body => onConfigurationCallback s tag body

/-- Run a list of external events in order, collecting all side effects. -/
def runEvents (s : ConnectorState) (es : List Event) : ConnectorState × List Op :=
  match es with
  | [] => (s, [])
  | e :: es2 =>
      let r1 := stepEvent s e
      let r2 := runEvents r1.1 es2
      (r2.1, r1.2 ++ r2.2)

/-- Acknowledgement operations among a list of side effects. -/
def isAck (o : Op) : Bool :=
  match o with
  | Op.basicAck _ => true
  | _ => false

def acksOf (ops : List Op) : List Op := ops.filter isAck

/-- Broker-level operations (publishes, acks, cancels, channel close),
with logging and scheduling effects dropped. -/
def isBrokerOp (o : Op) : Bool :=
  match o with
  | Op.basicPublish _ _ _ => true
  | Op.basicAck _ => true
  | Op.basicCancel _ => true
  | Op.channelClose => true
  | _ => false

def brokerOps (ops : List Op) : List Op := ops.filter isBrokerOp

/-- Number of publishes addressed to the given routing key. -/
def countPublishTo (rk : Option String) (ops : List Op) : Nat :=
  (ops.filter (fun o =>
    match o with
    | Op.basicPublish _ r _ => r == rk
    | _ => false)).length

/-- Number of scheduled retries: call_later of the reconnect timer at the
fixed 5 time unit delay. -/
def countRetrySched (ops : List Op) : Nat :=
  (ops.filter (fun o =>
    match o with
    | Op.callLater d t => d == 5 && t == TimerTask.reconnectTimer
    | _ => false)).length

/-- Number of connection initiations among the side effects. -/
def countConnInit (ops : List Op) : Nat :=
  (ops.filter (fun o =>
    match o with
    | Op.connectionInit _ _ => true
    | _ => false)).length

/-- The configuration obtained from the documented defaults with host
localhost and user user (what AmqpConfiguration.from_environment builds). -/
def sampleCfg : AmqpConfiguration :=
  { host := "localhost", user := "user", passwd := none,
    exchange := some "pingboard", rk_status := "status",
    rk_key := ["1.key", "2.key", "3.key", "4.key"],
    rk_config := some "pingboard-configuration",
    qu_config := "pingboard-configuration", declare := false }

/-- A sample configuration snapshot. -/
def snapJson : Json := Json.obj [("brightness", Json.num 50)]

/-- A connector in the consuming steady state: scheduler supplied, not
terminating, connection and channel open, consumer tag cached. -/
def consumingState (cfg : AmqpConfiguration) (cb : Option (Json → Bool))
    (tag : String) (prov : Option (Option (Except String Json))) : ConnectorState :=
  { cfg := cfg, ioloop := true, terminating := false, connection := true,
    channel := true, consumer_tag := some tag,
    configuration_callback := cb, configuration_provider := prov }

/-!
Helper lemmas shared by the claim theorems.
-/

theorem acksOf_append (a b : List Op) : acksOf (a ++ b) = acksOf a ++ acksOf b :=
  List.filter_append a b

theorem acksOf_publishOps (s : ConnectorState) (rk : Option String) (b : Json) :
    acksOf (publishOps s rk b) = [] := by
  unfold publishOps
  split <;> rfl

theorem stop_state_eq (s : ConnectorState) :
    (stop s).state = { s with terminating := true } := by
  unfold stop stopCancel
  dsimp only
  repeat' split
  all_goals rfl

theorem acksOf_stop_ops (s : ConnectorState) : acksOf (stop s).ops = [] := by
  unfold stop stopCancel
  dsimp only
  repeat' split
  all_goals rfl

theorem runLoopTask_state (s : ConnectorState) (t : LoopTask) : (runLoopTask s t).1 = s := by
  cases t <;> rfl

theorem acksOf_runLoopTask (s : ConnectorState) (t : LoopTask) :
    acksOf (runLoopTask s t).2 = [] := by
  cases t with
  | publishTask rk b => exact acksOf_publishOps s rk b
  | cancelTask tag =>
      unfold runLoopTask
      cases s.channel <;> rfl

theorem runQueue_state (s : ConnectorState) (q : List LoopTask) : (runQueue s q).1 = s := by
  induction q generalizing s with
  | nil => rfl
  | cons t ts ih =>
      unfold runQueue
      dsimp only
      rw [runLoopTask_state]
      exact ih s

theorem acksOf_runQueue (s : ConnectorState) (q : List LoopTask) :
    acksOf (runQueue s q).2 = [] := by
  induction q generalizing s with
  | nil => rfl
  | cons t ts ih =>
      unfold runQueue
      dsimp only
      rw [acksOf_append, acksOf_runLoopTask, runLoopTask_state]
      exact ih s

theorem acksOf_onconf (s : ConnectorState) (tag : Nat) (body : Body) :
    acksOf (onConfigurationCallback s tag body).2
      = if s.terminating then [] else [Op.basicAck tag] := by
  unfold onConfigurationCallback
  rw [acksOf_append]
  have h2 : acksOf (if s.terminating then [] else [Op.basicAck tag])
      = if s.terminating then [] else [Op.basicAck tag] := by
    cases s.terminating <;> rfl
  have h1 : acksOf (match s.configuration_callback with
      | none => []
      | some h =>
        match body with
        | Body.valid j => [Op.handlerCall j (h j)]
        | Body.invalid raw errMsg =>
            Op.logWarn ("Could not decode configuration snippet: " ++ errMsg) ::
              publishOps s (some s.cfg.rk_status) (errorReport raw errMsg)) = [] := by
    rcases s.configuration_callback with _ | h
    · rfl
    · cases body with
      | valid j => rfl
      | invalid raw errMsg =>
          show acksOf (_ :: publishOps s _ _) = []
          unfold publishOps
          cases s.channel <;> rfl
  rw [h1, h2]
  rfl

theorem onconf_state (s : ConnectorState) (tag : Nat) (body : Body) :
    (onConfigurationCallback s tag body).1 = s := rfl

theorem stepEvent_stop_terminating (s : ConnectorState) :
    (stepEvent s Event.stopEv).1.terminating = true := by
  unfold stepEvent
  dsimp only
  rw [runQueue_state, stop_state_eq]

theorem stepEvent_mono (s : ConnectorState) (e : Event) (h : s.terminating = true) :
    (stepEvent s e).1.terminating = true := by
  cases e with
  | stopEv => exact stepEvent_stop_terminating s
  | deliver tag body => exact h

theorem acksOf_stepEvent_term (s : ConnectorState) (e : Event) (h : s.terminating = true) :
    acksOf (stepEvent s e).2 = [] := by
  cases e with
  | stopEv =>
      unfold stepEvent
      dsimp only
      rw [acksOf_append, acksOf_stop_ops, acksOf_runQueue]
      rfl
  | deliver tag body =>
      show acksOf (onConfigurationCallback s tag body).2 = []
      rw [acksOf_onconf, h]
      rfl

theorem acksOf_runEvents_term (s : ConnectorState) (es : List Event)
    (h : s.terminating = true) : acksOf (runEvents s es).2 = [] := by
  induction es generalizing s with
  | nil => rfl
  | cons e es2 ih =>
      unfold runEvents
      dsimp only
      rw [acksOf_append, acksOf_stepEvent_term s e h]
      rw [ih (stepEvent s e).1 (stepEvent_mono s e h)]
      rfl



/-!
Claim theorems.
-/

/-- Claim C7 (code_bug): constructing the configuration with only host
localhost and user user supplied does not yield the documented defaults;
the membership test None in rk_key raises TypeError, because the rk_key
argument defaults to None and None is not iterable, before the defaulting
assignment rk_key or DEFAULT_RK_KEY is ever reached. -/
theorem c7_default_construction_raises :
    AmqpConfiguration.initHostUser (some "localhost") (some "user")
      = Except.error (ConfigError.typeError pyNoneNotIterableMsg) := rfl

/-- Claim C6 (code_bug): a configuration whose queue name is empty and whose
per-key routing keys are left at their default is rejected with the
unspecific TypeError of the None membership test, not with the
field-identifying queue-name error, because the rk_key check precedes the
queue check and crashes on the defaulted None. -/
theorem c6_missing_queue_not_identified :
    AmqpConfiguration.init (some "localhost") (some "user") none
      (some AmqpConfiguration.DEFAULT_EXCHANGE) (some AmqpConfiguration.DEFAULT_RK_STATUS)
      none (some AmqpConfiguration.DEFAULT_RK_CONFIGURATION) (some "")
      AmqpConfiguration.DEFAULT_DECLARE
      = Except.error (ConfigError.typeError pyNoneNotIterableMsg) := rfl

/-- Claim C9 (confirmed): for every index i in 1..4, publish_keypress with an
open channel publishes the JSON body with field key = i to the i-th
configured per-key routing key (the element at position i - 1). -/
theorem c9_publish_keypress_targets (s : ConnectorState) (i : Int) (rk : String)
    (h1 : s.channel = true) (h2 : 1 ≤ i) (h3 : i ≤ 4)
    (h4 : s.cfg.rk_key.get? (i - 1).toNat = some rk) :
    publish_keypress s i
      = Except.ok [Op.basicPublish s.cfg.exchange (some rk)
          (Json.obj [("key", Json.num i)])] := by
  unfold publish_keypress AmqpConfiguration.rk_key_at pyIndex
  have hne : ¬ (i - 1 < 0) := by omega
  simp only [if_neg hne, h4, publishOps, h1, if_pos]

/-- Claim C9 witness: index 2 on the default configuration targets 2.key. -/
def c9state : ConnectorState := consumingState sampleCfg none "ctag" none

theorem c9_witness :
    c9state.channel = true ∧ (1 : Int) ≤ 2 ∧ (2 : Int) ≤ 4
    ∧ c9state.cfg.rk_key.get? ((2 : Int) - 1).toNat = some "2.key"
    ∧ publish_keypress c9state 2
        = Except.ok [Op.basicPublish c9state.cfg.exchange (some "2.key")
            (Json.obj [("key", Json.num 2)])] :=
  ⟨rfl, by decide, by decide, rfl,
    c9_publish_keypress_targets c9state 2 "2.key" rfl (by decide) (by decide) rfl⟩

/-- Claim C10 (confirmed): publish_keypress with index 0 and an open channel
does not fail and emits no warning; the decremented index -1 selects the
last of the four configured per-key routing keys, and the body with
key = 0 is published there. -/
theorem c10_publish_keypress_zero (s : ConnectorState) (k1 k2 k3 k4 : String)
    (h1 : s.channel = true) (h2 : s.cfg.rk_key = [k1, k2, k3, k4]) :
    publish_keypress s 0
      = Except.ok [Op.basicPublish s.cfg.exchange (some k4)
          (Json.obj [("key", Json.num 0)])] := by
  unfold publish_keypress AmqpConfiguration.rk_key_at pyIndex
  rw [h2]
  simp only [publishOps, h1, if_pos]
  rfl

/-- Claim C10 witness: index 0 on the default configuration targets 4.key. -/
def c10state : ConnectorState := consumingState sampleCfg none "ctag" none

theorem c10_witness :
    c10state.channel = true ∧ c10state.cfg.rk_key = ["1.key", "2.key", "3.key", "4.key"]
    ∧ publish_keypress c10state 0
        = Except.ok [Op.basicPublish c10state.cfg.exchange (some "4.key")
            (Json.obj [("key", Json.num 0)])] :=
  ⟨rfl, rfl, c10_publish_keypress_zero c10state "1.key" "2.key" "3.key" "4.key" rfl rfl⟩

/-- Claim C3 counterexample: with no configuration handler registered, an
invalid inbound body produces no error publish at all (the decode is never
attempted), refuting the claim that every invalid body yields exactly one
error report on the status routing key. -/
def c3state : ConnectorState := consumingState sampleCfg none "ctag" none

theorem c3_counterexample :
    c3state.terminating = false ∧ c3state.channel = true
    ∧ countPublishTo (some c3state.cfg.rk_status)
        (onConfigurationCallback c3state 1 (Body.invalid "nonsense" "Expecting value")).2 = 0
    ∧ (onConfigurationCallback c3state 1 (Body.invalid "nonsense" "Expecting value")).2
        = [Op.basicAck 1] :=
  ⟨rfl, rfl, rfl, rfl⟩

/-- Claim C3 (corrected): when a configuration handler is registered and the
channel is open, an invalid inbound body yields a decode warning, exactly
one error report on the status routing key carrying the message, the
details and the raw original body, and exactly one acknowledgement unless
the connector is terminating. -/
theorem c3_amended_decode_failure (s : ConnectorState) (tag : Nat) (raw errMsg : String)
    (h : Json → Bool) (hcb : s.configuration_callback = some h) (hch : s.channel = true) :
    (onConfigurationCallback s tag (Body.invalid raw errMsg)).2
      = [Op.logWarn ("Could not decode configuration snippet: " ++ errMsg),
         Op.basicPublish s.cfg.exchange (some s.cfg.rk_status) (errorReport raw errMsg)]
        ++ (if s.terminating then [] else [Op.basicAck tag]) := by
  unfold onConfigurationCallback publishOps
  rw [hcb]
  simp only [hch, if_pos]

/-- Claim C3 witness: a registered handler and an open channel on the default
configuration. -/
def c3stateCb : ConnectorState :=
  consumingState sampleCfg (some (fun _ => true)) "ctag" none

theorem c3_witness :
    c3stateCb.configuration_callback = some (fun _ => true) ∧ c3stateCb.channel = true
    ∧ (onConfigurationCallback c3stateCb 1 (Body.invalid "bad" "Expecting value")).2
        = [Op.logWarn ("Could not decode configuration snippet: " ++ "Expecting value"),
           Op.basicPublish c3stateCb.cfg.exchange (some c3stateCb.cfg.rk_status)
             (errorReport "bad" "Expecting value")]
          ++ (if c3stateCb.terminating then [] else [Op.basicAck 1]) :=
  ⟨rfl, rfl,
    c3_amended_decode_failure c3stateCb 1 "bad" "Expecting value" (fun _ => true) rfl rfl⟩

/-- Claim C4 (confirmed): once stop has run, the terminating flag is set and
every later event of the run, in particular every delivered message,
produces no acknowledgement; before terminating, a delivered message
produces exactly one acknowledgement with its delivery tag, whatever the
registered handler and whatever its outcome on the decoded body. -/
theorem c4_no_ack_after_stop (s : ConnectorState) (es : List Event) (tag : Nat) (body : Body) :
    acksOf (runEvents (stepEvent s Event.stopEv).1 es).2 = []
    ∧ (s.terminating = false →
        acksOf (stepEvent s (Event.deliver tag body)).2 = [Op.basicAck tag]) := by
  constructor
  · exact acksOf_runEvents_term _ es (stepEvent_stop_terminating s)
  · intro h
    show acksOf (onConfigurationCallback s tag body).2 = [Op.basicAck tag]
    rw [acksOf_onconf, h]
    rfl

/-- Claim C4 witness: a consuming connector with a registered handler; after
a stop event a later delivery is not acknowledged, while a delivery before
the stop is acknowledged exactly once. -/
def c4state : ConnectorState :=
  consumingState sampleCfg (some (fun _ => true)) "ctag" none

theorem c4_witness :
    (acksOf (runEvents (stepEvent c4state Event.stopEv).1
        [Event.deliver 3 (Body.valid Json.null),
         Event.deliver 4 (Body.invalid "x" "Expecting value")]).2 = []
      ∧ (c4state.terminating = false →
          acksOf (stepEvent c4state (Event.deliver 7 (Body.valid Json.null))).2
            = [Op.basicAck 7]))
    ∧ acksOf (stepEvent c4state (Event.deliver 7 (Body.valid Json.null))).2
        = [Op.basicAck 7] :=
  ⟨c4_no_ack_after_stop c4state
      [Event.deliver 3 (Body.valid Json.null),
       Event.deliver 4 (Body.invalid "x" "Expecting value")] 7 (Body.valid Json.null),
   (c4_no_ack_after_stop c4state [] 7 (Body.valid Json.null)).2 rfl⟩

/-- Helper: stop from a consuming state with a live provider returning a
snapshot, a scheduler, and a non-empty configuration routing key enqueues
the flush publish followed by the consumer cancel and raises nothing. -/
theorem stop_consuming (s : ConnectorState) (tag : String) (snap : Json)
    (h1 : s.channel = true) (h2 : s.consumer_tag = some tag) (h3 : tag ≠ "")
    (h4 : s.ioloop = true)
    (h5 : s.configuration_provider = some (some (Except.ok snap)))
    (h6 : s.cfg.rk_config ≠ some "") :
    stop s = { state := { s with terminating := true },
               ops := [Op.logInfo "Terminating RabbitMQ consumer",
                       Op.logInfo "Trying to send current configuration."],
               queued := [LoopTask.publishTask s.cfg.rk_config snap, LoopTask.cancelTask tag],
               err := none } := by
  have hd : providerDeref s = some (Except.ok snap) := by
    unfold providerDeref
    rw [h5]
    rfl
  have htag2 : truthyStr (some tag) = true := by
    unfold truthyStr
    simp [bne_iff_ne, h3]
  unfold stop stopCancel
  dsimp only
  rw [hd, h5]
  simp [bne_iff_ne, h6, h1, h2, h4, htag2]

/-- Claim C1 counterexample: a consuming connector with a live provider and
the default (non-empty) configuration routing key; calling stop twice
before the ioloop runs schedules two flush publishes, and running the queue
then performs two publishes to the configuration routing key — the second
stop call is not a no-op. -/
def c1state : ConnectorState :=
  consumingState sampleCfg none "ctag" (some (some (Except.ok snapJson)))

theorem c1_counterexample :
    c1state.terminating = false
    ∧ countPublishTo c1state.cfg.rk_config
        (runQueue (stop (stop c1state).state).state
          ((stop c1state).queued ++ (stop (stop c1state).state).queued)).2 = 2 :=
  ⟨rfl, by decide⟩

/-- Claim C1 (corrected): stop always sets the terminating flag, but a
second stop call is not a no-op: while the channel, the consumer tag and a
live provider are still present and the configuration routing key is
non-empty, every stop call — the first and each later one alike — schedules
a further flush publish and consumer cancel, and two back-to-back stop
calls make the queue perform two flush publishes to the configuration
routing key. -/
theorem c1_amended_stop_not_idempotent (s : ConnectorState) (tag : String) (snap : Json)
    (h1 : s.channel = true) (h2 : s.consumer_tag = some tag) (h3 : tag ≠ "")
    (h4 : s.ioloop = true)
    (h5 : s.configuration_provider = some (some (Except.ok snap)))
    (h6 : s.cfg.rk_config ≠ some "") :
    (stop s).queued = [LoopTask.publishTask s.cfg.rk_config snap, LoopTask.cancelTask tag]
    ∧ (stop (stop s).state).queued
        = [LoopTask.publishTask s.cfg.rk_config snap, LoopTask.cancelTask tag]
    ∧ countPublishTo s.cfg.rk_config
        (runQueue (stop (stop s).state).state
          ((stop s).queued ++ (stop (stop s).state).queued)).2 = 2 := by
  have e1 := stop_consuming s tag snap h1 h2 h3 h4 h5 h6
  have e2 := stop_consuming { s with terminating := true } tag snap h1 h2 h3 h4 h5 h6
  rw [e1] at *
  dsimp only
  rw [e2]
  refine ⟨rfl, rfl, ?_⟩
  dsimp only
  simp [runQueue, runLoopTask, publishOps, h1, countPublishTo, List.filter]

/-- Claim C1 witness: the state of the counterexample satisfies the
hypotheses of the amended theorem. -/
theorem c1_witness :
    c1state.channel = true ∧ c1state.consumer_tag = some "ctag" ∧ "ctag" ≠ ""
    ∧ c1state.ioloop = true
    ∧ c1state.configuration_provider = some (some (Except.ok snapJson))
    ∧ c1state.cfg.rk_config ≠ some ""
    ∧ ((stop c1state).queued
          = [LoopTask.publishTask c1state.cfg.rk_config snapJson, LoopTask.cancelTask "ctag"]
        ∧ (stop (stop c1state).state).queued
            = [LoopTask.publishTask c1state.cfg.rk_config snapJson, LoopTask.cancelTask "ctag"]
        ∧ countPublishTo c1state.cfg.rk_config
            (runQueue (stop (stop c1state).state).state
              ((stop c1state).queued ++ (stop (stop c1state).state).queued)).2 = 2) :=
  ⟨rfl, rfl, by decide, rfl, rfl, by decide,
    c1_amended_stop_not_idempotent c1state "ctag" snapJson rfl rfl (by decide) rfl rfl (by decide)⟩

/-- Claim C2 (confirmed): from a consuming state (channel open, consumer tag
cached, scheduler present, not terminating) with a registered, live
provider returning a snapshot and a non-empty configuration routing key,
stop raises nothing and the drained queue performs exactly the publish of
that snapshot to the configuration routing key, then the consumer cancel,
then the channel close, in that order. -/
theorem c2_stop_flush_cancel_close (s : ConnectorState) (tag : String) (snap : Json)
    (h1 : s.channel = true) (h2 : s.consumer_tag = some tag) (h3 : tag ≠ "")
    (h4 : s.ioloop = true)
    (h5 : s.configuration_provider = some (some (Except.ok snap)))
    (h6 : s.cfg.rk_config ≠ some "") (_h7 : s.terminating = false) :
    (stop s).err = none
    ∧ brokerOps (runQueue (stop s).state (stop s).queued).2
        = [Op.basicPublish s.cfg.exchange s.cfg.rk_config snap,
           Op.basicCancel tag, Op.channelClose] := by
  rw [stop_consuming s tag snap h1 h2 h3 h4 h5 h6]
  refine ⟨rfl, ?_⟩
  dsimp only
  simp [runQueue, runLoopTask, publishOps, h1, brokerOps, isBrokerOp, List.filter]

/-- Claim C2 witness: the consuming state over the default configuration. -/
def c2state : ConnectorState :=
  consumingState sampleCfg (some (fun _ => true)) "consumer-tag" (some (some (Except.ok snapJson)))

theorem c2_witness :
    c2state.channel = true ∧ c2state.consumer_tag = some "consumer-tag"
    ∧ "consumer-tag" ≠ "" ∧ c2state.ioloop = true
    ∧ c2state.configuration_provider = some (some (Except.ok snapJson))
    ∧ c2state.cfg.rk_config ≠ some "" ∧ c2state.terminating = false
    ∧ ((stop c2state).err = none
        ∧ brokerOps (runQueue (stop c2state).state (stop c2state).queued).2
            = [Op.basicPublish c2state.cfg.exchange c2state.cfg.rk_config snapJson,
               Op.basicCancel "consumer-tag", Op.channelClose]) :=
  ⟨rfl, rfl, by decide, rfl, rfl, by decide, rfl,
    c2_stop_flush_cancel_close c2state "consumer-tag" snapJson rfl rfl (by decide) rfl rfl
      (by decide) rfl⟩

/-- Claim C5 counterexample: a connector built without a scheduler (ioloop
None) that is consuming with a live provider; stop propagates the
AttributeError raised by add_callback on the missing ioloop, so stop can
raise to its caller. -/
def c5state : ConnectorState :=
  { cfg := sampleCfg, ioloop := false, terminating := false, connection := true,
    channel := true, consumer_tag := some "ctag",
    configuration_callback := none,
    configuration_provider := some (some (Except.ok snapJson)) }

theorem c5_counterexample :
    (stop c5state).err = some attrErrMsg ∧ (stop c5state).state.terminating = true :=
  ⟨rfl, rfl⟩

/-- Claim C5 (corrected): stop returns normally — for any channel, consumer
and provider-registration state — provided a scheduler is present and a
still-alive provider call does not raise; the terminating flag is set in
every case, even when stop does raise. -/
theorem c5_amended_stop_no_raise (s : ConnectorState)
    (hio : s.ioloop = true)
    (hprov : ∀ e, providerDeref s ≠ some (Except.error e)) :
    (stop s).err = none ∧ (stop s).state.terminating = true := by
  refine ⟨?_, by rw [stop_state_eq]⟩
  unfold stop stopCancel
  dsimp only
  rcases hd : providerDeref s with _ | r
  · simp only [hd, Option.isSome_none, Bool.and_false, Bool.false_eq_true, if_false, hio,
      if_true]
    split <;> rfl
  · rcases r with e | j
    · exact absurd hd (hprov e)
    · simp only [hd, hio, if_true]
      split
      · split <;> rfl
      · split <;> rfl

/-- Claim C5 witness: a consuming connector with a scheduler and a live,
normally returning provider. -/
def c5stateOk : ConnectorState :=
  consumingState sampleCfg none "ctag" (some (some (Except.ok snapJson)))

theorem c5_witness :
    c5stateOk.ioloop = true
    ∧ ((stop c5stateOk).err = none ∧ (stop c5stateOk).state.terminating = true) :=
  ⟨rfl, c5_amended_stop_no_raise c5stateOk rfl
    (by intro e h; simp [providerDeref, c5stateOk, consumingState] at h)⟩

/-- Claim C8 counterexample: a terminating connector with a scheduler; an
asynchronous connection-open error still schedules a retry timer (the
on-connection-error handler has no terminating guard), refuting the claim
that no retry is scheduled once the supervisor is terminating. -/
def c8state : ConnectorState :=
  { cfg := sampleCfg, ioloop := true, terminating := true, connection := false,
    channel := false, consumer_tag := none,
    configuration_callback := none, configuration_provider := none }

theorem c8_counterexample :
    c8state.terminating = true
    ∧ countRetrySched (onConnectionError c8state "connection refused").ops = 1 :=
  ⟨rfl, rfl⟩

/-- Claim C8 (corrected): with a scheduler present, every failed connect
attempt while not terminating — the synchronous connect exception and the
asynchronous connection-open error alike — schedules exactly one retry at
the fixed 5 time unit delay; once terminating, the reconnect sequence does
nothing at all (no retry, no connection attempt), while an asynchronous
connection-open error still schedules the one timer callback, whose later
reconnect run observes the terminating flag and initiates nothing. -/
theorem c8_amended_retry (s : ConnectorState) (e : String) (hio : s.ioloop = true) :
    (s.terminating = false →
        countRetrySched (reconnect s (some e)).ops = 1
        ∧ countRetrySched (onConnectionError s e).ops = 1)
    ∧ (s.terminating = true →
        (reconnect s (some e)).ops = [] ∧ (reconnect s none).ops = []
        ∧ (reconnect s none).state = s
        ∧ countRetrySched (onConnectionError s e).ops = 1) := by
  constructor
  · intro ht
    constructor
    · simp [reconnect, connectStep, ht, hio, countRetrySched, List.filter]
    · simp [onConnectionError, hio, countRetrySched, List.filter]
  · intro ht
    refine ⟨?_, ?_, ?_, ?_⟩ <;>
      simp [reconnect, onConnectionError, ht, hio, countRetrySched, List.filter]

/-- Claim C8 witness: the terminating connector of the counterexample
satisfies the amended theorem. -/
theorem c8_witness :
    c8state.ioloop = true
    ∧ ((reconnect c8state (some "connection refused")).ops = []
        ∧ (reconnect c8state none).ops = []
        ∧ (reconnect c8state none).state = c8state
        ∧ countRetrySched (onConnectionError c8state "connection refused").ops = 1) :=
  ⟨rfl, (c8_amended_retry c8state "connection refused" rfl).2 rfl⟩
